import Mathlib

/-
Verification of the xSyn sync-store core (main.go, xBrowserSync API 1.1.5).

The embedding follows the current main.go of the repository: the BoltDB
storage holds three buckets, BM (payload by id), TS (timestamp by id) and
VR (client version by id), plus the per-bucket auto-increment sequence of
the BM bucket.  Each Gin route handler runs one Bolt transaction; a Bolt
Update transaction either commits all of its writes or rolls every write
back, so a handler is modelled as a pure state transition on the Store,
and readers only ever observe pre- or post-transaction states.

The id generation pipeline of the POST handler draws a fresh random V4
UUID on every loop iteration, mixes it with the sequence number through a
V5 (SHA-1) UUID, and hex-encodes the first 16 bytes of the result.  The
random draw makes each iteration's 16 bytes an arbitrary value, so the
pipeline is modelled as an oracle, rnd : Nat -> List Nat, giving the 16
bytes produced at each loop attempt; hex encoding is modelled exactly.
-/

namespace XSyn

/-- Lowercase hexadecimal digit table used by Go encoding/hex
(0-9 then a-f). -/
def hexDigit (n : Nat) : Char :=
  if n < 10 then Char.ofNat (48 + n) else Char.ofNat (87 + n)

/-- One byte renders as two lowercase hex characters, as in Go
hex.Encode. -/
def hexByte (b : Nat) : List Char :=
  [hexDigit ((b % 256) / 16), hexDigit ((b % 256) % 16)]

/-- Go hex.Encode: each input byte becomes two lowercase hex characters. -/
def hexEncode (bs : List Nat) : String :=
  ⟨(bs.map hexByte).flatten⟩

/-- The first 16 bytes of the mixed UUID (uuid2[0:16] in main.go); the
oracle output is normalised to exactly 16 bytes. -/
def uuidBytes (l : List Nat) : List Nat :=
  (l ++ List.replicate 16 0).take 16

/-- The candidate identifier produced at a given loop attempt: the 32
hex characters of the 16 mixed-UUID bytes (buf in main.go). -/
def candidateID (rnd : Nat → List Nat) (attempt : Nat) : String :=
  hexEncode (uuidBytes (rnd attempt))

/-- A Bolt bucket: a partial map from key strings to value strings.  A
Get that returns nil in Go is none here; a stored empty value is
some empty-string (Bolt returns a non-nil empty slice for it). -/
def Bucket : Type := String → Option String

/-- The Bolt store of main.go: buckets BM (payload), TS (timestamp),
VR (client version), and the BM bucket's auto-increment sequence. -/
structure Store where
  bm : String → Option String
  ts : String → Option String
  vr : String → Option String
  seq : Nat

/-- Bucket.Put: map update. -/
def bput (m : String → Option String) (k v : String) : String → Option String :=
  fun x => if x = k then some v else m x

/-- A route handler response: a 200 JSON object given as ordered fields,
a 409 error object built by handleError (code and message), or a raw
200 body (the empty JSON table used as the empty-result marker). -/
inductive Resp where
  | ok (fields : List (String × String))
  | err (code message : String)
  | okRaw (body : String)
deriving DecidableEq

/-- Request body of POST /bookmarks (CreateBookmarkData): the creating
client's version string, possibly empty. -/
structure CreateBookmarkData where
  clientVersion : String

/-- Request body of PUT /bookmarks/:id (RequestData): the encoded
bookmarks payload. -/
structure RequestData where
  encodedBookmarks : String

/-- The unique-id retry loop of the POST handler.  Each iteration
generates a candidate, uses it if the BM bucket has no entry for it,
and otherwise increments uniqueIDRetryCount and retries; once the
counter exceeds 8 the transaction fails with the collision error.  The
gas argument is the number of candidates the loop may still examine:
the Go loop errors exactly after its ninth colliding candidate, so it
starts at 9. -/
def idLoop (bm : String → Option String) (rnd : Nat → List Nat) :
    Nat → Nat → Except String String
  | _, 0 => Except.error "too many UUID collisions"
  | attempt, gas + 1 =>
    match bm (candidateID rnd attempt) with
    | none => Except.ok (candidateID rnd attempt)
    | some _ => idLoop bm rnd (attempt + 1) gas

/-- The Update transaction of POST /bookmarks: take the next sequence
number, find a free candidate id (at most 9 attempts), then write the
empty payload, the client version and the creation timestamp for it,
all in this one transaction.  An error outcome means the transaction
rolled back and the store is unchanged. -/
def createSync (rnd : Nat → List Nat) (t cv : String) (st : Store) :
    Except String (String × Store) :=
  match idLoop st.bm rnd 0 9 with
  | Except.error e => Except.error e
  | Except.ok id =>
      Except.ok (id,
        { bm := bput st.bm id ""
          ts := bput st.ts id t
          vr := bput st.vr id cv
          seq := st.seq + 1 })

/-- The POST /bookmarks handler: refuse when new syncs are disallowed;
otherwise run the creation transaction and answer with id, lastUpdated
and version on success, or a 409 InternalError on failure (handleError
with an empty message echoes the transaction error text). -/
def postBookmarks (newSyncsAllowed : Bool) (rnd : Nat → List Nat)
    (t : String) (req : CreateBookmarkData) (st : Store) : Resp × Store :=
  if newSyncsAllowed = false then
    (Resp.err "NotAllowed" "Not accepting new sync users", st)
  else
    match createSync rnd t req.clientVersion st with
    | Except.ok (id, st') =>
        (Resp.ok [("id", id), ("lastUpdated", t), ("version", req.clientVersion)], st')
    | Except.error e => (Resp.err "InternalError" e, st)

/-- The View transaction of GET /bookmarks/:id: read payload, timestamp
and version; a nil result for any of the three aborts with the matching
not-found error. -/
def getSyncTx (markID : String) (st : Store) :
    Except String (String × String × String) :=
  match st.bm markID with
  | none => Except.error "data not found for key"
  | some data =>
    match st.ts markID with
    | none => Except.error "timestamp not found for key"
    | some ts =>
      match st.vr markID with
      | none => Except.error "version not found for key"
      | some ver => Except.ok (data, ts, ver)

/-- The GET /bookmarks/:id handler: any transaction error is reported by
handleError as a 409 InvalidArgument with message Invalid ID; success
answers with bookmarks, lastUpdated and version. -/
def getBookmarks (markID : String) (st : Store) : Resp :=
  match getSyncTx markID st with
  | Except.error _ => Resp.err "InvalidArgument" "Invalid ID"
  | Except.ok (data, ts, ver) =>
      Resp.ok [("bookmarks", data), ("lastUpdated", ts), ("version", ver)]

/-- The Update transaction of PUT /bookmarks/:id: write the new payload
and the new timestamp for the given id, with no existence check and no
version write. -/
def putSync (markID payload t : String) (st : Store) : Store :=
  { bm := bput st.bm markID payload
    ts := bput st.ts markID t
    vr := st.vr
    seq := st.seq }

/-- The PUT /bookmarks/:id handler: run the update transaction and
answer with the new lastUpdated timestamp. -/
def putBookmarks (markID : String) (req : RequestData) (t : String)
    (st : Store) : Resp × Store :=
  (Resp.ok [("lastUpdated", t)], putSync markID req.encodedBookmarks t st)

/-- The GET /bookmarks/:id/lastUpdated handler: read the timestamp (a
nil Get read as a Go string is the empty string); answer with it when
non-empty, and with the raw empty JSON table otherwise, signalling not
found without an error. -/
def getLastUpdatedRoute (markID : String) (st : Store) : Resp :=
  if ((st.ts markID).getD "").length > 0 then
    Resp.ok [("lastUpdated", (st.ts markID).getD "")]
  else
    Resp.okRaw "\x7b\x7d"

/-- One serialised API operation against the store: a create (POST,
gated by the new-syncs toggle and with its own randomness oracle and
wall-clock timestamp) or a payload update (PUT).  Bolt serialises all
Update transactions, so any concurrent workload is some such list. -/
inductive Op where
  | create (allowed : Bool) (rnd : Nat → List Nat) (t : String) (req : CreateBookmarkData)
  | put (markID : String) (req : RequestData) (t : String)

/-- Effect of one operation: the id returned by a successful create (the
PUT route returns no id), and the post-transaction store. -/
def step (st : Store) : Op → Option String × Store
  | Op.create allowed rnd t req =>
      if allowed = false then (none, st)
      else
        match createSync rnd t req.clientVersion st with
        | Except.ok (id, st') => (some id, st')
        | Except.error _ => (none, st)
  | Op.put markID req t => (none, putSync markID req.encodedBookmarks t st)

/-- Run a list of operations, collecting the identifiers returned by the
successful creates, in order. -/
def runOps : List Op → Store → List String × Store
  | [], st => ([], st)
  | op :: ops, st =>
      ((step st op).1.toList ++ (runOps ops (step st op).2).1,
        (runOps ops (step st op).2).2)

/-- A wall-clock instant as Go time.Now() sees it: calendar fields, the
sub-second milliseconds, and the local zone offset east of UTC in
minutes. -/
structure GoTime where
  year : Nat
  month : Nat
  day : Nat
  hour : Nat
  minute : Nat
  second : Nat
  milli : Nat
  offsetMinutes : Int

/-- Two-digit zero padding, as the 01-style verbs of a Go time layout. -/
def pad2 (n : Nat) : String :=
  if n < 10 then "0" ++ toString n else toString n

/-- Four-digit zero padding for the year. -/
def pad4 (n : Nat) : String :=
  if n < 10 then "000" ++ toString n
  else if n < 100 then "00" ++ toString n
  else if n < 1000 then "0" ++ toString n
  else toString n

/-- The Z07:00 verb of the Go RFC3339 layout: the letter Z for UTC, and
a signed hours:minutes offset otherwise. -/
def rfc3339Offset (offsetMinutes : Int) : String :=
  if offsetMinutes = 0 then "Z"
  else
    (if 0 ≤ offsetMinutes then "+" else "-")
      ++ pad2 (offsetMinutes.natAbs / 60) ++ ":" ++ pad2 (offsetMinutes.natAbs % 60)

/-- createTimestampString in main.go: time.Now().Format(time.RFC3339).
The RFC3339 layout of the Go standard library is the fixed string
2006-01-02T15:04:05Z07:00; it carries no fractional-second verb, so the
milliseconds of the instant never appear in the output, and the zone
rendered is the local one of the process. -/
def createTimestampString (now : GoTime) : String :=
  pad4 now.year ++ "-" ++ pad2 now.month ++ "-" ++ pad2 now.day ++ "T"
    ++ pad2 now.hour ++ ":" ++ pad2 now.minute ++ ":" ++ pad2 now.second
    ++ rfc3339Offset now.offsetMinutes

/-- Modelled from the spec: the character allowed at each position of
the fixed millisecond-precision UTC text format whose shape the spec
fixes by the example 2016-07-06T12:43:16.866Z. -/
def specShapeChar (i : Nat) (c : Char) : Bool :=
  if i == 4 || i == 7 then c == '-'
  else if i == 10 then c == 'T'
  else if i == 13 || i == 16 then c == ':'
  else if i == 19 then c == '.'
  else if i == 23 then c == 'Z'
  else c.isDigit

/-- Modelled from the spec: a string matches the fixed ISO-8601 UTC
millisecond shape of the spec exactly when it has 24 characters laid
out as in 2016-07-06T12:43:16.866Z. -/
def specMilliTimestampShape (s : String) : Bool :=
  s.length == 24 &&
    (List.range 24).all fun i =>
      match s.data.get? i with
      | some c => specShapeChar i c
      | none => false

/-! Helper lemmas about the embedded definitions. -/

theorem bput_self (m : String → Option String) (k v : String) :
    bput m k v k = some v := by
  simp [bput]

theorem bput_ne (m : String → Option String) (k v x : String) (h : x ≠ k) :
    bput m k v x = m x := by
  simp [bput, h]

theorem bput_isSome (m : String → Option String) (k v x : String)
    (h : (m x).isSome = true) : (bput m k v x).isSome = true := by
  by_cases hx : x = k <;> simp [bput, hx, h]

theorem hexEncode_length (bs : List Nat) :
    (hexEncode bs).length = 2 * bs.length := by
  induction bs with
  | nil => rfl
  | cons b tl ih =>
      simp only [hexEncode, String.length, List.map_cons, List.flatten_cons,
        List.length_append, List.length_cons] at ih ⊢
      simp only [hexByte, List.length_cons, List.length_nil]
      omega

theorem uuidBytes_length (l : List Nat) : (uuidBytes l).length = 16 := by
  simp only [uuidBytes, List.length_take, List.length_append,
    List.length_replicate]
  omega

theorem candidateID_length (rnd : Nat → List Nat) (attempt : Nat) :
    (candidateID rnd attempt).length = 32 := by
  simp [candidateID, hexEncode_length, uuidBytes_length]

theorem idLoop_ok (bm : String → Option String) (rnd : Nat → List Nat) :
    ∀ gas attempt id, idLoop bm rnd attempt gas = Except.ok id →
      bm id = none ∧ id.length = 32 := by
  intro gas
  induction gas with
  | zero => intro attempt id h; simp [idLoop] at h
  | succ g ih =>
      intro attempt id h
      simp only [idLoop] at h
      cases hc : bm (candidateID rnd attempt) with
      | none =>
          rw [hc] at h
          simp only [Except.ok.injEq] at h
          subst h
          exact ⟨hc, candidateID_length rnd attempt⟩
      | some v =>
          rw [hc] at h
          exact ih (attempt + 1) id h

theorem idLoop_all_collide (bm : String → Option String) (rnd : Nat → List Nat) :
    ∀ gas attempt,
      (∀ i, i < gas → (bm (candidateID rnd (attempt + i))).isSome = true) →
      idLoop bm rnd attempt gas = Except.error "too many UUID collisions" := by
  intro gas
  induction gas with
  | zero => intro attempt _; rfl
  | succ g ih =>
      intro attempt h
      have h0 : (bm (candidateID rnd attempt)).isSome = true := by
        have := h 0 (Nat.succ_pos g)
        simpa using this
      obtain ⟨v, hv⟩ := Option.isSome_iff_exists.mp h0
      simp only [idLoop, hv]
      apply ih
      intro i hi
      have := h (i + 1) (by omega)
      rw [show attempt + 1 + i = attempt + (i + 1) by omega]
      exact this

theorem createSync_ok (rnd : Nat → List Nat) (t cv : String) (st : Store)
    (id : String) (st' : Store)
    (h : createSync rnd t cv st = Except.ok (id, st')) :
    st.bm id = none ∧ id.length = 32 ∧
    st'.bm = bput st.bm id "" ∧ st'.ts = bput st.ts id t ∧
    st'.vr = bput st.vr id cv ∧ st'.seq = st.seq + 1 := by
  unfold createSync at h
  cases hl : idLoop st.bm rnd 0 9 with
  | error e => rw [hl] at h; simp at h
  | ok cand =>
      rw [hl] at h
      simp only [Except.ok.injEq, Prod.mk.injEq] at h
      obtain ⟨hid, hst⟩ := h
      obtain ⟨hfresh, hlen⟩ := idLoop_ok st.bm rnd 9 0 cand hl
      subst hid
      rw [← hst]
      exact ⟨hfresh, hlen, rfl, rfl, rfl, rfl⟩

theorem createSync_error (rnd : Nat → List Nat) (t cv : String) (st : Store)
    (h : ∀ i, i ≤ 8 → (st.bm (candidateID rnd i)).isSome = true) :
    createSync rnd t cv st = Except.error "too many UUID collisions" := by
  unfold createSync
  rw [idLoop_all_collide st.bm rnd 9 0 (by intro i hi; simpa using h i (by omega))]

theorem step_bm_isSome (st : Store) (op : Op) (k : String)
    (h : (st.bm k).isSome = true) :
    (((step st op).2).bm k).isSome = true := by
  cases op with
  | create allowed rnd t req =>
      cases allowed with
      | false => simpa [step] using h
      | true =>
          cases hc : createSync rnd t req.clientVersion st with
          | ok p =>
              obtain ⟨id, st'⟩ := p
              obtain ⟨-, -, hbm, -, -, -⟩ :=
                createSync_ok rnd t req.clientVersion st id st' hc
              simp [step, hc, hbm]
              exact bput_isSome st.bm id "" k h
          | error e =>
              simp [step, hc]
              simpa using h
  | put markID req t =>
      simp only [step, putSync]
      exact bput_isSome st.bm markID req.encodedBookmarks k h

theorem step_some (st : Store) (op : Op) (id : String)
    (h : (step st op).1 = some id) :
    st.bm id = none ∧ (((step st op).2).bm id).isSome = true ∧
    id.length = 32 := by
  cases op with
  | create allowed rnd t req =>
      cases allowed with
      | false => simp [step] at h
      | true =>
          cases hc : createSync rnd t req.clientVersion st with
          | ok p =>
              obtain ⟨id', st'⟩ := p
              simp [step, hc] at h ⊢
              obtain ⟨hfresh, hlen, hbm, -, -, -⟩ :=
                createSync_ok rnd t req.clientVersion st id' st' hc
              subst h
              exact ⟨hfresh, by simp [hbm, bput_self], hlen⟩
          | error e =>
              simp [step, hc] at h
  | put markID req t => simp [step] at h

theorem runOps_not_mem (ops : List Op) :
    ∀ (st : Store) (k : String), (st.bm k).isSome = true →
      k ∉ (runOps ops st).1 := by
  induction ops with
  | nil => intro st k _ hmem; simp [runOps] at hmem
  | cons op tl ih =>
      intro st k h hmem
      simp only [runOps, List.mem_append] at hmem
      rcases hmem with h1 | h2
      · cases hs : (step st op).1 with
        | none => rw [hs] at h1; simp at h1
        | some id =>
            rw [hs] at h1
            simp only [Option.toList_some, List.mem_singleton] at h1
            subst h1
            obtain ⟨hfresh, -, -⟩ := step_some st op k hs
            rw [hfresh] at h
            simp at h
      · exact ih (step st op).2 k (step_bm_isSome st op k h) h2

/-! Concrete fixtures used by witnesses and counterexamples. -/

/-- The store before any record exists: all three buckets are empty and
the sequence counter is zero. -/
def emptyStore : Store :=
  { bm := fun _ => none, ts := fun _ => none, vr := fun _ => none, seq := 0 }

/-- A concrete randomness oracle: every attempt yields the all-zero
16-byte block, so every candidate is the 32-zero identifier. -/
def rnd0 : Nat → List Nat := fun _ => []

/-- A concrete creation timestamp. -/
def ts0 : String := "2018-10-01T00:00:00Z"

/-- A 32-character identifier used by concrete scenarios. -/
def idCafe : String := "cafecafecafecafecafecafecafecafe"

/-- A store holding only a client-version record for idCafe, as if that
identifier had been issued and its payload and timestamp rows were the
ones a subsequent put will overwrite. -/
def stVr : Store :=
  { emptyStore with vr := bput emptyStore.vr idCafe "1.1.4" }

/-- A store whose only content is an empty-string timestamp for the
key zz. -/
def stEmptyTs : Store :=
  { emptyStore with ts := bput emptyStore.ts "zz" "" }

/-! Claim theorems. -/

/-- C1: over any serialised sequence of operations (Bolt serialises the
concurrent Update transactions of the handlers), the identifiers
returned by the successful creates are pairwise distinct and are all 32
characters long.  Each create checks the candidate against the BM
bucket and claims it inside the same transaction (one step of the trace
semantics), so a returned identifier was free when written and is never
handed out again. -/
theorem create_ids_pairwise_distinct (ops : List Op) (st : Store) :
    ((runOps ops st).1).Pairwise (fun a b => a ≠ b) ∧
    ∀ id ∈ (runOps ops st).1, id.length = 32 := by
  induction ops generalizing st with
  | nil => simp [runOps]
  | cons op tl ih =>
      simp only [runOps]
      cases hs : (step st op).1 with
      | none => simpa using ih (step st op).2
      | some id =>
          obtain ⟨hfresh, hpost, hlen⟩ := step_some st op id hs
          obtain ⟨ihp, ihl⟩ := ih (step st op).2
          constructor
          · simp only [Option.toList_some, List.singleton_append]
            refine List.Pairwise.cons ?_ ihp
            intro b hb heq
            subst heq
            exact runOps_not_mem tl (step st op).2 id hpost hb
          · intro x hx
            simp only [Option.toList_some, List.singleton_append,
              List.mem_cons] at hx
            rcases hx with rfl | hx
            · exact hlen
            · exact ihl x hx

/-- C2: creation and payload update are all-or-nothing.  A create either
commits with payload (the empty string), timestamp and client version
all written for the new identifier, or leaves the store exactly as it
was; a put writes both its payload and its timestamp.  Readers only see
pre- or post-transaction stores (Bolt transaction isolation), so no
mixed state is observable. -/
theorem create_update_all_or_nothing (allowed : Bool) (rnd : Nat → List Nat)
    (t cv p markID : String) (st : Store) :
    ((∃ id st',
        postBookmarks allowed rnd t ⟨cv⟩ st =
          (Resp.ok [("id", id), ("lastUpdated", t), ("version", cv)], st') ∧
        st'.bm id = some "" ∧ st'.ts id = some t ∧ st'.vr id = some cv) ∨
      (postBookmarks allowed rnd t ⟨cv⟩ st).2 = st) ∧
    ((putBookmarks markID ⟨p⟩ t st).2.bm markID = some p ∧
      (putBookmarks markID ⟨p⟩ t st).2.ts markID = some t) := by
  refine ⟨?_, ?_, ?_⟩
  · cases allowed with
    | false => right; simp [postBookmarks]
    | true =>
        cases hc : createSync rnd t cv st with
        | ok q =>
            obtain ⟨id, st'⟩ := q
            left
            obtain ⟨-, -, hbm, hts, hvr, -⟩ := createSync_ok rnd t cv st id st' hc
            refine ⟨id, st', by simp [postBookmarks, hc], ?_, ?_, ?_⟩
            · simp [hbm, bput_self]
            · simp [hts, bput_self]
            · simp [hvr, bput_self]
        | error e => right; simp [postBookmarks, hc]
  · simp [putBookmarks, putSync, bput_self]
  · simp [putBookmarks, putSync, bput_self]

/-- C7: the PUT handler performs no existence check: for any identifier
and payload it succeeds, writes the payload/timestamp pair for that
identifier (creating it silently when unknown, since the store is
universally quantified and may lack the key), and returns the new
timestamp. -/
theorem put_upsert (markID p t : String) (st : Store) :
    (putBookmarks markID ⟨p⟩ t st).1 = Resp.ok [("lastUpdated", t)] ∧
    ((putBookmarks markID ⟨p⟩ t st).2).bm markID = some p ∧
    ((putBookmarks markID ⟨p⟩ t st).2).ts markID = some t := by
  refine ⟨rfl, ?_, ?_⟩ <;> simp [putBookmarks, putSync, bput_self]

/-- C8: for an identifier with no record (absent from the BM and TS
buckets), the GET handler fails with the not-found transaction error
surfaced as the InvalidArgument response; it fails the same way whenever
any of the three required fields is absent; and the lastUpdated route
answers with the raw empty JSON table, a constructor distinct from every
error response, and indeed never produces an error response at all. -/
theorem getsync_notfound_lastupdated_empty (markID : String) (st : Store)
    (hbm : st.bm markID = none) (hts : st.ts markID = none) :
    getSyncTx markID st = Except.error "data not found for key" ∧
    getBookmarks markID st = Resp.err "InvalidArgument" "Invalid ID" ∧
    getLastUpdatedRoute markID st = Resp.okRaw "\x7b\x7d" ∧
    (∀ st2 : Store,
      st2.bm markID = none ∨ st2.ts markID = none ∨ st2.vr markID = none →
      getBookmarks markID st2 = Resp.err "InvalidArgument" "Invalid ID") ∧
    (∀ (st3 : Store) (c m : String),
      getLastUpdatedRoute markID st3 ≠ Resp.err c m) := by
  refine ⟨?_, ?_, ?_, ?_, ?_⟩
  · simp [getSyncTx, hbm]
  · simp [getBookmarks, getSyncTx, hbm]
  · simp [getLastUpdatedRoute, hts]
  · intro st2 h2
    rcases h2 with h2 | h2 | h2
    · simp [getBookmarks, getSyncTx, h2]
    · cases hb : st2.bm markID with
      | none => simp [getBookmarks, getSyncTx, hb]
      | some d => simp [getBookmarks, getSyncTx, hb, h2]
    · cases hb : st2.bm markID with
      | none => simp [getBookmarks, getSyncTx, hb]
      | some d =>
          cases ht : st2.ts markID with
          | none => simp [getBookmarks, getSyncTx, hb, ht]
          | some u => simp [getBookmarks, getSyncTx, hb, ht, h2]
  · intro st3 c m
    unfold getLastUpdatedRoute
    by_cases hl : ((st3.ts markID).getD "").length > 0 <;> simp [hl]

/-- C8 witness: on the empty store the never-created identifier from the
spec scenario gets the InvalidArgument failure from GET while the
lastUpdated route answers the empty JSON table. -/
theorem getsync_notfound_lastupdated_empty_witness :
    getBookmarks "deadbeefdeadbeefdeadbeefdeadbeef" emptyStore =
      Resp.err "InvalidArgument" "Invalid ID" ∧
    getLastUpdatedRoute "deadbeefdeadbeefdeadbeefdeadbeef" emptyStore =
      Resp.okRaw "\x7b\x7d" :=
  ⟨(getsync_notfound_lastupdated_empty "deadbeefdeadbeefdeadbeefdeadbeef"
      emptyStore rfl rfl).2.1,
   (getsync_notfound_lastupdated_empty "deadbeefdeadbeefdeadbeefdeadbeef"
      emptyStore rfl rfl).2.2.1⟩

/-- C9 counterexample: the claim fails as stated.  On the empty store a
put of the payload ENCBLOB to an identifier that was never created
succeeds and returns the new timestamp, yet the immediately following
get on that identifier fails (its version row is absent, and the GET
transaction requires it), instead of returning the payload. -/
theorem put_then_get_counterexample :
    (putBookmarks idCafe ⟨"ENCBLOB"⟩ ts0 emptyStore).1 =
      Resp.ok [("lastUpdated", ts0)] ∧
    getBookmarks idCafe ((putBookmarks idCafe ⟨"ENCBLOB"⟩ ts0 emptyStore).2) =
      Resp.err "InvalidArgument" "Invalid ID" := by
  exact ⟨rfl, rfl⟩

/-- C9 amended: for every identifier that has a stored client version
(every identifier actually issued by create-sync, whose creation wrote
all three rows), a successful put of payload P followed immediately by
a get returns exactly P together with exactly the timestamp the put
returned (equal, hence at least as large). -/
theorem put_then_get_roundtrip (markID p t cv : String) (st : Store)
    (hver : st.vr markID = some cv) :
    (putBookmarks markID ⟨p⟩ t st).1 = Resp.ok [("lastUpdated", t)] ∧
    getBookmarks markID ((putBookmarks markID ⟨p⟩ t st).2) =
      Resp.ok [("bookmarks", p), ("lastUpdated", t), ("version", cv)] := by
  refine ⟨rfl, ?_⟩
  simp [putBookmarks, putSync, getBookmarks, getSyncTx, bput_self, hver]

/-- C9 amended witness: with the client-version row for idCafe in
place, put then get round-trips the payload and the timestamp. -/
theorem put_then_get_roundtrip_witness :
    stVr.vr idCafe = some "1.1.4" ∧
    getBookmarks idCafe ((putBookmarks idCafe ⟨"ENCBLOB"⟩ ts0 stVr).2) =
      Resp.ok [("bookmarks", "ENCBLOB"), ("lastUpdated", ts0), ("version", "1.1.4")] :=
  ⟨rfl, (put_then_get_roundtrip idCafe "ENCBLOB" ts0 "1.1.4" stVr rfl).2⟩

/-- C10: the lastUpdated route answers the raw empty JSON table exactly
when the stored timestamp string read for the identifier (a missing row
reads as the empty Go string) has length zero; consequently a stored
empty-string timestamp is indistinguishable at this route from a row
that was never created. -/
theorem lastupdated_empty_marker_iff (markID : String) (st : Store) :
    (getLastUpdatedRoute markID st = Resp.okRaw "\x7b\x7d" ↔
      ((st.ts markID).getD "").length = 0) ∧
    (∀ st1 st2 : Store, st1.ts markID = some "" → st2.ts markID = none →
      getLastUpdatedRoute markID st1 = getLastUpdatedRoute markID st2) := by
  constructor
  · unfold getLastUpdatedRoute
    by_cases hl : ((st.ts markID).getD "").length > 0
    · simp [hl]; omega
    · simp [hl]; omega
  · intro st1 st2 h1 h2
    unfold getLastUpdatedRoute
    rw [h1, h2]
    rfl

/-- C10 witness: the empty store gets the empty marker for key zz, and
the store holding an empty-string timestamp for zz is answered
identically. -/
theorem lastupdated_empty_marker_iff_witness :
    getLastUpdatedRoute "zz" emptyStore = Resp.okRaw "\x7b\x7d" ∧
    getLastUpdatedRoute "zz" stEmptyTs = getLastUpdatedRoute "zz" emptyStore :=
  ⟨(lastupdated_empty_marker_iff "zz" emptyStore).1.mpr rfl,
   (lastupdated_empty_marker_iff "zz" emptyStore).2 stEmptyTs emptyStore rfl rfl⟩

/-- A concrete randomness oracle whose attempt n yields the byte n+1,
so successive candidates are distinct concrete identifiers. -/
def rndC : Nat → List Nat := fun n => [n + 1]

/-- A store whose BM bucket holds exactly the first eight candidates the
rndC oracle will produce, so a create against it suffers exactly eight
collisions before the ninth candidate is found free. -/
def stColl : Store :=
  { bm := fun k =>
      if k ∈ (List.range 8).map (candidateID rndC) then some "x" else none
    ts := fun _ => none
    vr := fun _ => none
    seq := 0 }

/-- A store in which every key is occupied, so every candidate ever
generated collides. -/
def stAll : Store :=
  { bm := fun _ => some "x", ts := fun _ => none, vr := fun _ => none, seq := 0 }

/-- C3 counterexample: the claim fails as stated.  Against a store in
which the first eight candidate identifiers all collide, the create
does not abort: the loop tries a ninth candidate, finds it free, and
the operation succeeds with it.  The uniqueIDRetryCount > 8 abort fires
only after a ninth collision. -/
theorem create_no_abort_after_eight_collisions :
    (∀ i, i < 8 → (stColl.bm (candidateID rndC i)).isSome = true) ∧
    stColl.bm (candidateID rndC 8) = none ∧
    (postBookmarks true rndC ts0 ⟨"1.1.4"⟩ stColl).1 =
      Resp.ok [("id", candidateID rndC 8), ("lastUpdated", ts0), ("version", "1.1.4")] := by
  refine ⟨by decide, by decide, by decide⟩

/-- C3 amended: the retry loop is bounded and create-sync always
terminates (the loop body runs at most nine times), but the abort fires
after nine consecutive collisions, when the retry counter exceeds 8:
whenever the first nine candidates all collide, the creation
transaction fails with the collision error, surfaced as the internal
409 InternalError response (not a client-facing validation failure such
as MissingParameter), and the store is left unchanged. -/
theorem create_aborts_after_nine_collisions (rnd : Nat → List Nat)
    (t cv : String) (st : Store)
    (h : ∀ i, i ≤ 8 → (st.bm (candidateID rnd i)).isSome = true) :
    createSync rnd t cv st = Except.error "too many UUID collisions" ∧
    postBookmarks true rnd t ⟨cv⟩ st =
      (Resp.err "InternalError" "too many UUID collisions", st) := by
  have hc := createSync_error rnd t cv st h
  exact ⟨hc, by simp [postBookmarks, hc]⟩

/-- C3 amended witness: on a store where every key is taken, the create
aborts with the internal collision error and changes nothing. -/
theorem create_aborts_after_nine_collisions_witness :
    postBookmarks true rnd0 ts0 ⟨"1.1.4"⟩ stAll =
      (Resp.err "InternalError" "too many UUID collisions", stAll) :=
  (create_aborts_after_nine_collisions rnd0 ts0 "1.1.4" stAll (fun _ _ => rfl)).2

/-- C4 (code bug): createTimestampString formats with the Go layout
time.RFC3339, which has no fractional-second verb and renders the local
zone offset, even though the comment above it in main.go states the
2016-07-06T12:43:16.866Z millisecond format that the claim requires.
At the wall-clock instant 2016-07-06 12:43:16.866 UTC the function
yields a 20-character second-precision string that fails the spec
shape, and at the same instant in a UTC+2 zone it does not even end in
Z; the spec example itself does match the shape. -/
theorem timestamp_format_lacks_milliseconds :
    createTimestampString ⟨2016, 7, 6, 12, 43, 16, 866, 0⟩ = "2016-07-06T12:43:16Z" ∧
    specMilliTimestampShape "2016-07-06T12:43:16Z" = false ∧
    specMilliTimestampShape "2016-07-06T12:43:16.866Z" = true ∧
    createTimestampString ⟨2016, 7, 6, 12, 43, 16, 866, 120⟩ =
      "2016-07-06T12:43:16+02:00" := by
  refine ⟨by decide, by decide, by decide, by decide⟩

/-- C5: a successful create records the client-version string taken
from the request (possibly empty) in the VR bucket under the new
identifier, in the same transaction, and the handler returns it to the
caller together with the new identifier and the creation timestamp. -/
theorem create_records_client_version (rnd : Nat → List Nat) (t cv : String)
    (st : Store) (id : String) (st' : Store)
    (h : createSync rnd t cv st = Except.ok (id, st')) :
    postBookmarks true rnd t ⟨cv⟩ st =
      (Resp.ok [("id", id), ("lastUpdated", t), ("version", cv)], st') ∧
    st'.vr id = some cv ∧ st'.ts id = some t := by
  obtain ⟨-, -, -, hts, hvr, -⟩ := createSync_ok rnd t cv st id st' h
  exact ⟨by simp [postBookmarks, h], by simp [hvr, bput_self],
    by simp [hts, bput_self]⟩

/-- The identifier issued by the rnd0 oracle: thirty-two zero
characters. -/
def idZero : String := candidateID rnd0 0

/-- The store produced by the first create against the empty store with
the rnd0 oracle. -/
def stPost : Store :=
  { bm := bput emptyStore.bm idZero ""
    ts := bput emptyStore.ts idZero ts0
    vr := bput emptyStore.vr idZero "1.1.4"
    seq := 1 }

/-- C5 witness: creating on the empty store with client version 1.1.4
answers with that version and stores it for the new identifier. -/
theorem create_records_client_version_witness :
    postBookmarks true rnd0 ts0 ⟨"1.1.4"⟩ emptyStore =
      (Resp.ok [("id", idZero), ("lastUpdated", ts0), ("version", "1.1.4")], stPost) ∧
    stPost.vr idZero = some "1.1.4" :=
  ⟨(create_records_client_version rnd0 ts0 "1.1.4" emptyStore idZero stPost rfl).1,
   (create_records_client_version rnd0 ts0 "1.1.4" emptyStore idZero stPost rfl).2.1⟩

/-- C6: a successful create writes the empty string as the payload of
the new record, and a get on the returned identifier against the
post-creation store (no intervening writes) observes that empty
payload. -/
theorem create_payload_empty_string (rnd : Nat → List Nat) (t cv : String)
    (st : Store) (id : String) (st' : Store)
    (h : createSync rnd t cv st = Except.ok (id, st')) :
    st'.bm id = some "" ∧
    getBookmarks id st' =
      Resp.ok [("bookmarks", ""), ("lastUpdated", t), ("version", cv)] := by
  obtain ⟨-, -, hbm, hts, hvr, -⟩ := createSync_ok rnd t cv st id st' h
  refine ⟨by simp [hbm, bput_self], ?_⟩
  simp [getBookmarks, getSyncTx, hbm, hts, hvr, bput_self]

/-- C6 witness: the record created on the empty store holds the empty
payload and the immediate get returns it. -/
theorem create_payload_empty_string_witness :
    stPost.bm idZero = some "" ∧
    getBookmarks idZero stPost =
      Resp.ok [("bookmarks", ""), ("lastUpdated", ts0), ("version", "1.1.4")] :=
  ⟨(create_payload_empty_string rnd0 ts0 "1.1.4" emptyStore idZero stPost rfl).1,
   (create_payload_empty_string rnd0 ts0 "1.1.4" emptyStore idZero stPost rfl).2⟩

end XSyn
